import Mathlib

/-!
Verification of `custom-plugin/prepare_plugin_build.py`.

The script performs four file mutations:
1. `cloned-router/Cargo.toml`: insert two fixed paths into the workspace
   member set and write the set back as a sorted list.
2. `cloned-router/rust-toolchain.toml`: rewrite every line whose stripped
   content starts with `channel`.
3. `cloned-router/apollo-router/config.toml`: rewrite every line whose
   stripped content starts with `rust =`.
4. `cloned-router/dockerfiles/diy/dockerfiles/Dockerfile.repo`: rewrite
   every line whose stripped content starts with `FROM rust:` or with
   `RUN cargo install --path`.

Python strings are embedded as `List Char`; a text file is a list of lines
as produced by Python's line iteration (each line keeps its terminator).
-/

namespace PreparePlugin

/-- Characters removed by Python's `str.strip()` with no argument: the
code points for which `str.isspace()` holds. -/
def isPySpace (c : Char) : Bool :=
  c == ' ' || c == '\t' || c == '\n' || c == '\x0b' || c == '\x0c' || c == '\r' ||
  c == '\x1c' || c == '\x1d' || c == '\x1e' || c == '\x1f' || c == '\x85' || c == '\xa0' ||
  c == '\u1680' || c == '\u2000' || c == '\u2001' || c == '\u2002' || c == '\u2003' ||
  c == '\u2004' || c == '\u2005' || c == '\u2006' || c == '\u2007' || c == '\u2008' ||
  c == '\u2009' || c == '\u200a' || c == '\u2028' || c == '\u2029' || c == '\u202f' ||
  c == '\u205f' || c == '\u3000'

/-- One line of a text file, as a sequence of characters. -/
abbrev Line := List Char

/-- Python's `line.strip()`: drop leading and trailing whitespace. -/
def stripL (l : Line) : Line :=
  ((l.dropWhile isPySpace).reverse.dropWhile isPySpace).reverse

/-- Python's `s.startswith(p)` for the embedded strings `s` and `p`. -/
def startsWithL : Line → Line → Bool
  | _, [] => true
  | [], _ :: _ => false
  | c :: cs, p :: ps => c == p && startsWithL cs ps

/-- Match of line 28 of the script: `line.strip().startswith("channel")`. -/
def lineIsChannel (line : Line) : Bool := startsWithL (stripL line) "channel".data

/-- Match of line 42 of the script: `line.strip().startswith("rust =")`. -/
def lineIsRust (line : Line) : Bool := startsWithL (stripL line) "rust =".data

/-- Match of line 56 of the script: `line.strip().startswith("FROM rust:")`. -/
def lineIsFrom (line : Line) : Bool := startsWithL (stripL line) "FROM rust:".data

/-- Match of line 58 of the script:
`line.strip().startswith("RUN cargo install --path")`. -/
def lineIsInstall (line : Line) : Bool :=
  startsWithL (stripL line) "RUN cargo install --path".data

/-- Replacement written at line 29: `channel = "{RUST_VERSION}"\n`. -/
def channelLine (v : Line) : Line := "channel = \"".data ++ v ++ "\"\n".data

/-- Replacement written at line 43: `rust = "{RUST_VERSION}"\n`. -/
def rustLine (v : Line) : Line := "rust = \"".data ++ v ++ "\"\n".data

/-- Replacement written at line 57: `FROM rust:{RUST_VERSION} as build\n`. -/
def fromLine (v : Line) : Line := "FROM rust:".data ++ v ++ " as build\n".data

/-- Replacement written at line 59 (a fixed literal). -/
def installLine : Line :=
  "RUN cargo install --path custom-plugin/router-with-plugin\n".data

/-- Body of the `rust-toolchain.toml` loop (lines 27-31). -/
def patchToolchainLine (v line : Line) : Line :=
  if lineIsChannel line then channelLine v else line

/-- The `rust-toolchain.toml` loop applied to a whole file (lines 25-33). -/
def patchToolchainLines (v : Line) (lines : List Line) : List Line :=
  lines.map (patchToolchainLine v)

/-- Body of the `config.toml` loop (lines 41-45). -/
def patchConfigLine (v line : Line) : Line :=
  if lineIsRust line then rustLine v else line

/-- The `config.toml` loop applied to a whole file (lines 39-47). -/
def patchConfigLines (v : Line) (lines : List Line) : List Line :=
  lines.map (patchConfigLine v)

/-- Body of the `Dockerfile.repo` loop (lines 55-61); the `FROM rust:`
branch is tested first. -/
def patchDockerLine (v line : Line) : Line :=
  if lineIsFrom line then fromLine v
  else if lineIsInstall line then installLine
  else line

/-- The `Dockerfile.repo` loop applied to a whole file (lines 53-63). -/
def patchDockerLines (v : Line) (lines : List Line) : List Line :=
  lines.map (patchDockerLine v)

/-- Fixed member added at line 14: `"custom-plugin"`. -/
def memberCustomPlugin : Line := "custom-plugin".data

/-- Fixed member added at line 15: `"custom-plugin/router-with-plugin"`. -/
def memberRouterWithPlugin : Line := "custom-plugin/router-with-plugin".data

/-- Lines 13-16: `set(existing)` plus the two fixed members, then
`sorted(members)`. Python's `sorted` on strings is the lexicographic
order on code points, which is the `≤` of `List Char`. -/
def patchMembers (ms : List Line) : List Line :=
  List.insertionSort (· ≤ ·)
    (List.dedup (memberCustomPlugin :: memberRouterWithPlugin :: ms))

/-- The `[workspace]` table of `Cargo.toml`, restricted to the one key the
script touches; `members = none` models an absent `members` key. -/
structure WorkspaceTable where
  members : Option (List Line)
deriving DecidableEq

/-- The parsed `Cargo.toml`; `workspace = none` models a manifest with no
`[workspace]` table. -/
structure CargoData where
  workspace : Option WorkspaceTable
deriving DecidableEq

/-- Line 13: `cargo_data.get("workspace", {}).get("members", [])`. -/
def membersRead (d : CargoData) : List Line :=
  match d.workspace with
  | none => []
  | some w => w.members.getD []

/-- Lines 13-16. The assignment
`cargo_data["workspace"]["members"] = sorted(members)` raises `KeyError`
when the manifest has no `workspace` key, which is modelled as `none`. -/
def cargoPatch (d : CargoData) : Option CargoData :=
  match d.workspace with
  | none => none
  | some w => some ⟨some { w with members := some (patchMembers (membersRead d)) }⟩

/-- The files the script touches. For the three optional text files,
`none` models an absent file (the `os.path.exists` guards). -/
structure FileSystem where
  cargo : CargoData
  rustToolchain : Option (List Line)
  configToml : Option (List Line)
  dockerfileRepo : Option (List Line)
deriving DecidableEq

/-- Step 1 of the script (lines 10-20). -/
def stepCargo (fs : FileSystem) : Option FileSystem :=
  (cargoPatch fs.cargo).map fun c => { fs with cargo := c }

/-- Step 2 of the script (lines 23-34), guarded by `os.path.exists`. -/
def stepToolchain (v : Line) (fs : FileSystem) : FileSystem :=
  match fs.rustToolchain with
  | none => fs
  | some ls => { fs with rustToolchain := some (patchToolchainLines v ls) }

/-- Step 3 of the script (lines 37-48), guarded by `os.path.exists`. -/
def stepConfig (v : Line) (fs : FileSystem) : FileSystem :=
  match fs.configToml with
  | none => fs
  | some ls => { fs with configToml := some (patchConfigLines v ls) }

/-- Step 4 of the script (lines 51-64), guarded by `os.path.exists`. -/
def stepDocker (v : Line) (fs : FileSystem) : FileSystem :=
  match fs.dockerfileRepo with
  | none => fs
  | some ls => { fs with dockerfileRepo := some (patchDockerLines v ls) }

/-- Line 7: `os.environ.get("RUST_VERSION", "latest")`. -/
def rustVersionOf (env : Option Line) : Line := env.getD "latest".data

/-- The whole script: the version token is read once (line 7), then the
four steps run in order; a failure of the required first step aborts. -/
def runScript (env : Option Line) (fs : FileSystem) : Option FileSystem :=
  let v := rustVersionOf env
  match stepCargo fs with
  | none => none
  | some fs1 => some (stepDocker v (stepConfig v (stepToolchain v fs1)))

/-- Shape required of a replacement line: nonempty, first character not
whitespace, exactly one newline, placed at the end, and no carriage
return. -/
def cleanReplacement (s : Line) : Prop :=
  s.head?.all (fun c => !isPySpace c) = true ∧ s ≠ [] ∧
  s.count '\n' = 1 ∧ s.getLast? = some '\n' ∧ '\r' ∉ s

theorem mem_patchMembers {a : Line} {ms : List Line} :
    a ∈ patchMembers ms ↔
      a = memberCustomPlugin ∨ a = memberRouterWithPlugin ∨ a ∈ ms := by
  simp [patchMembers, List.mem_insertionSort, List.mem_dedup]

theorem nodup_patchMembers (ms : List Line) : (patchMembers ms).Nodup :=
  ((List.perm_insertionSort _ _).nodup_iff).mpr (List.nodup_dedup _)

theorem count_eq_one_of_nodup_mem {a : Line} {l : List Line}
    (h : l.Nodup) (hm : a ∈ l) : l.count a = 1 := by
  induction l with
  | nil => cases hm
  | cons b t ih =>
    rcases List.mem_cons.mp hm with rfl | hmt
    · have hnt : a ∉ t := (List.nodup_cons.mp h).1
      simp [List.count_cons, List.count_eq_zero.mpr hnt]
    · have hne : a ≠ b := by
        rintro rfl
        exact (List.nodup_cons.mp h).1 hmt
      simp [List.count_cons, hne, ih (List.nodup_cons.mp h).2 hmt]

theorem sorted_patchMembers (ms : List Line) :
    List.Sorted (· ≤ ·) (patchMembers ms) :=
  List.sorted_insertionSort _ _

/-- C1: for every pre-existing member list, the patched member sequence is
sorted, duplicate-free, contains each of the two fixed paths exactly once,
and contains every pre-existing member. -/
theorem patchMembers_invariant (ms : List Line) :
    List.Sorted (· ≤ ·) (patchMembers ms) ∧
    (patchMembers ms).Nodup ∧
    (patchMembers ms).count memberCustomPlugin = 1 ∧
    (patchMembers ms).count memberRouterWithPlugin = 1 ∧
    ∀ m ∈ ms, m ∈ patchMembers ms := by
  refine ⟨sorted_patchMembers ms, nodup_patchMembers ms, ?_, ?_, ?_⟩
  · exact count_eq_one_of_nodup_mem (nodup_patchMembers ms)
      (mem_patchMembers.mpr (Or.inl rfl))
  · exact count_eq_one_of_nodup_mem (nodup_patchMembers ms)
      (mem_patchMembers.mpr (Or.inr (Or.inl rfl)))
  · exact fun m hm => mem_patchMembers.mpr (Or.inr (Or.inr hm))

theorem patchMembers_invariant_witness :
    "apollo-router".data ∈ patchMembers ["apollo-router".data] :=
  (patchMembers_invariant ["apollo-router".data]).2.2.2.2 _ (by decide)

/-- C5: the member patch is idempotent — patching an already patched
member list changes nothing. -/
theorem patchMembers_idempotent (ms : List Line) :
    patchMembers (patchMembers ms) = patchMembers ms := by
  have h1 : memberCustomPlugin ∈ patchMembers ms :=
    mem_patchMembers.mpr (Or.inl rfl)
  have h2 : memberRouterWithPlugin ∈ patchMembers ms :=
    mem_patchMembers.mpr (Or.inr (Or.inl rfl))
  show List.insertionSort (· ≤ ·)
      (List.dedup (memberCustomPlugin :: memberRouterWithPlugin :: patchMembers ms)) =
    patchMembers ms
  rw [List.dedup_cons_of_mem (List.mem_cons_of_mem _ h1),
    List.dedup_cons_of_mem h2,
    List.dedup_eq_self.mpr (nodup_patchMembers ms)]
  exact (sorted_patchMembers ms).insertionSort_eq

/-- C4 counterexample: a manifest with no `[workspace]` table has no
workspace-members collection, yet the patch fails on it (the member
assignment raises `KeyError: "workspace"`), so the claim that the patch
succeeds on every such manifest is false. -/
theorem cargoPatch_no_workspace_fails : cargoPatch ⟨none⟩ = none := rfl

/-- C4 (amended): for every manifest with a `[workspace]` table whose
`members` key is absent, the patch succeeds and writes back exactly the
two fixed paths, sorted. -/
theorem cargoPatch_absent_members (w : WorkspaceTable) (h : w.members = none) :
    cargoPatch ⟨some w⟩ =
      some ⟨some ⟨some [memberCustomPlugin, memberRouterWithPlugin]⟩⟩ := by
  obtain ⟨m⟩ := w
  cases h
  decide

theorem cargoPatch_absent_members_witness :
    cargoPatch ⟨some ⟨none⟩⟩ =
      some ⟨some ⟨some [memberCustomPlugin, memberRouterWithPlugin]⟩⟩ :=
  cargoPatch_absent_members ⟨none⟩ rfl

theorem startsWithL_install_not_from (s : Line)
    (h : startsWithL s ("RUN cargo install --path".data) = true) :
    startsWithL s ("FROM rust:".data) = false := by
  cases s with
  | nil => exact absurd h (by decide)
  | cons c cs =>
    have hc : c = 'R' := by
      have e1 : ("RUN cargo install --path".data) =
          'R' :: "UN cargo install --path".data := rfl
      rw [e1] at h
      simp only [startsWithL, Bool.and_eq_true, beq_iff_eq] at h
      exact h.1
    subst hc
    have e2 : ("FROM rust:".data) = 'F' :: "ROM rust:".data := rfl
    rw [e2]
    simp [startsWithL]

/-- C2: for each of the three line-oriented files, patching preserves the
line count, and every line whose stripped content does not match that
file's predicate is identical before and after at its position. -/
theorem patch_lines_frame (v : Line) (tl cl dl : List Line) :
    ((patchToolchainLines v tl).length = tl.length ∧
      ∀ (i : Nat) (h : i < tl.length), lineIsChannel (tl.get ⟨i, h⟩) = false →
        (patchToolchainLines v tl)[i]? = some (tl.get ⟨i, h⟩)) ∧
    ((patchConfigLines v cl).length = cl.length ∧
      ∀ (i : Nat) (h : i < cl.length), lineIsRust (cl.get ⟨i, h⟩) = false →
        (patchConfigLines v cl)[i]? = some (cl.get ⟨i, h⟩)) ∧
    ((patchDockerLines v dl).length = dl.length ∧
      ∀ (i : Nat) (h : i < dl.length), lineIsFrom (dl.get ⟨i, h⟩) = false →
        lineIsInstall (dl.get ⟨i, h⟩) = false →
        (patchDockerLines v dl)[i]? = some (dl.get ⟨i, h⟩)) := by
  refine ⟨⟨by simp [patchToolchainLines], fun i h hm => ?_⟩,
    ⟨by simp [patchConfigLines], fun i h hm => ?_⟩,
    ⟨by simp [patchDockerLines], fun i h hm1 hm2 => ?_⟩⟩
  · simp only [List.get_eq_getElem] at hm ⊢
    simp [patchToolchainLines, List.getElem?_map, List.getElem?_eq_getElem h,
      patchToolchainLine, hm]
  · simp only [List.get_eq_getElem] at hm ⊢
    simp [patchConfigLines, List.getElem?_map, List.getElem?_eq_getElem h,
      patchConfigLine, hm]
  · simp only [List.get_eq_getElem] at hm1 hm2 ⊢
    simp [patchDockerLines, List.getElem?_map, List.getElem?_eq_getElem h,
      patchDockerLine, hm1, hm2]

theorem patch_lines_frame_witness :
    (patchToolchainLines "1.75".data ["# pin\n".data])[0]? = some ("# pin\n".data) :=
  ((patch_lines_frame "1.75".data ["# pin\n".data] [] []).1.2) 0 (by decide) (by decide)

/-- C3: with version token `1.75`, every `Dockerfile.repo` line whose
stripped content starts with `FROM rust:` becomes exactly
`FROM rust:1.75 as build\n`, and every line whose stripped content starts
with `RUN cargo install --path` becomes exactly
`RUN cargo install --path custom-plugin/router-with-plugin\n`, whatever
install path the original line named. -/
theorem dockerfile_patch_175 (dl : List Line) (i : Nat) (h : i < dl.length) :
    (lineIsFrom (dl.get ⟨i, h⟩) = true →
      (patchDockerLines "1.75".data dl)[i]? =
        some ("FROM rust:1.75 as build\n".data)) ∧
    (lineIsInstall (dl.get ⟨i, h⟩) = true →
      (patchDockerLines "1.75".data dl)[i]? =
        some ("RUN cargo install --path custom-plugin/router-with-plugin\n".data)) := by
  constructor
  · intro hm
    have hline : patchDockerLine "1.75".data (dl.get ⟨i, h⟩) =
        "FROM rust:1.75 as build\n".data := by
      simp only [patchDockerLine, hm, if_true]
      rfl
    simp only [List.get_eq_getElem] at hline ⊢
    simp [patchDockerLines, List.getElem?_map, List.getElem?_eq_getElem h, hline]
  · intro hm
    have hnf : lineIsFrom (dl.get ⟨i, h⟩) = false :=
      startsWithL_install_not_from _ hm
    have hline : patchDockerLine "1.75".data (dl.get ⟨i, h⟩) =
        "RUN cargo install --path custom-plugin/router-with-plugin\n".data := by
      simp only [patchDockerLine, hnf, hm, if_true, if_false]
      rfl
    simp only [List.get_eq_getElem] at hline ⊢
    simp [patchDockerLines, List.getElem?_map, List.getElem?_eq_getElem h, hline]

theorem dockerfile_patch_175_witness :
    (patchDockerLines "1.75".data
        ["FROM rust:1.70 as build\n".data, "RUN cargo install --path apollo-router\n".data])[0]? =
      some ("FROM rust:1.75 as build\n".data) ∧
    (patchDockerLines "1.75".data
        ["FROM rust:1.70 as build\n".data, "RUN cargo install --path apollo-router\n".data])[1]? =
      some ("RUN cargo install --path custom-plugin/router-with-plugin\n".data) :=
  ⟨(dockerfile_patch_175
      ["FROM rust:1.70 as build\n".data, "RUN cargo install --path apollo-router\n".data]
      0 (by decide)).1 (by decide),
    (dockerfile_patch_175
      ["FROM rust:1.70 as build\n".data, "RUN cargo install --path apollo-router\n".data]
      1 (by decide)).2 (by decide)⟩

/-- C6: with version token `1.75`, every `rust-toolchain.toml` line whose
stripped content starts with `channel` becomes exactly
`channel = "1.75"` with a terminating newline. -/
theorem toolchain_patch_175 (tl : List Line) (i : Nat) (h : i < tl.length)
    (hm : lineIsChannel (tl.get ⟨i, h⟩) = true) :
    (patchToolchainLines "1.75".data tl)[i]? = some ("channel = \"1.75\"\n".data) := by
  have hline : patchToolchainLine "1.75".data (tl.get ⟨i, h⟩) =
      "channel = \"1.75\"\n".data := by
    simp only [patchToolchainLine, hm, if_true]
    rfl
  simp only [List.get_eq_getElem] at hline ⊢
  simp [patchToolchainLines, List.getElem?_map, List.getElem?_eq_getElem h, hline]

theorem toolchain_patch_175_witness :
    (patchToolchainLines "1.75".data ["channel = \"1.76.0\"\n".data])[0]? =
      some ("channel = \"1.75\"\n".data) :=
  toolchain_patch_175 ["channel = \"1.76.0\"\n".data] 0 (by decide) (by decide)

/-- C7: with version token `1.75`, every `config.toml` line whose stripped
content starts with `rust =` becomes exactly `rust = "1.75"` with a
terminating newline. -/
theorem config_patch_175 (cl : List Line) (i : Nat) (h : i < cl.length)
    (hm : lineIsRust (cl.get ⟨i, h⟩) = true) :
    (patchConfigLines "1.75".data cl)[i]? = some ("rust = \"1.75\"\n".data) := by
  have hline : patchConfigLine "1.75".data (cl.get ⟨i, h⟩) =
      "rust = \"1.75\"\n".data := by
    simp only [patchConfigLine, hm, if_true]
    rfl
  simp only [List.get_eq_getElem] at hline ⊢
  simp [patchConfigLines, List.getElem?_map, List.getElem?_eq_getElem h, hline]

theorem config_patch_175_witness :
    (patchConfigLines "1.75".data ["rust = \"1.76.0\"\n".data])[0]? =
      some ("rust = \"1.75\"\n".data) :=
  config_patch_175 ["rust = \"1.76.0\"\n".data] 0 (by decide) (by decide)

/-- C8: when one of the three optional files is absent, the corresponding
step finishes without error and leaves the whole filesystem unchanged. -/
theorem absent_file_steps_noop (v : Line) (fs : FileSystem) :
    (fs.rustToolchain = none → stepToolchain v fs = fs) ∧
    (fs.configToml = none → stepConfig v fs = fs) ∧
    (fs.dockerfileRepo = none → stepDocker v fs = fs) := by
  obtain ⟨c, rt, cf, dk⟩ := fs
  refine ⟨fun h => ?_, fun h => ?_, fun h => ?_⟩ <;> (cases h; rfl)

theorem absent_file_steps_noop_witness :
    stepToolchain "1.75".data ⟨⟨none⟩, none, none, none⟩ = ⟨⟨none⟩, none, none, none⟩ :=
  (absent_file_steps_noop "1.75".data ⟨⟨none⟩, none, none, none⟩).1 rfl

/-- C9: the version token is the value of `RUST_VERSION` when it is set
and exactly `latest` when it is unset, and the script passes the one token
it read at start to the toolchain, config, and build-file steps alike. -/
theorem version_token_spec (env : Option Line) (fs : FileSystem) :
    (∀ w : Line, rustVersionOf (some w) = w) ∧
    rustVersionOf none = "latest".data ∧
    runScript env fs = (stepCargo fs).map (fun fs1 =>
      stepDocker (rustVersionOf env) (stepConfig (rustVersionOf env)
        (stepToolchain (rustVersionOf env) fs1))) := by
  refine ⟨fun w => rfl, rfl, ?_⟩
  cases hsc : stepCargo fs <;> simp [runScript, hsc]

theorem cleanReplacement_wrap (c : Char) (t post v : Line)
    (hn : '\n' ∉ v) (hr : '\r' ∉ v)
    (hc : isPySpace c = false)
    (htn : (c :: t).count '\n' = 0) (hpn : post.count '\n' = 1)
    (htr : '\r' ∉ c :: t) (hpr : '\r' ∉ post)
    (hpl : post.getLast? = some '\n') (hpne : post ≠ []) :
    cleanReplacement ((c :: t) ++ v ++ post) := by
  refine ⟨?_, by simp, ?_, ?_, ?_⟩
  · simp [List.cons_append, List.head?, hc]
  · rw [List.count_append, List.count_append, htn, hpn,
      List.count_eq_zero.mpr hn]
  · rw [List.getLast?_append_of_ne_nil _ hpne, hpl]
  · intro hmem
    rcases List.mem_append.mp hmem with h12 | h3
    · rcases List.mem_append.mp h12 with h1 | h2
      · exact htr h1
      · exact hr h2
    · exact hpr h3

/-- C10: whenever a line matches, the written replacement starts with a
non-whitespace character and carries exactly one newline, at its end, and
no carriage return — whatever indentation or terminator the original line
had — provided the version token itself contains no newline and no
carriage return. -/
theorem replacement_line_shape (v line : Line) (hn : '\n' ∉ v) (hr : '\r' ∉ v) :
    (lineIsChannel line = true →
      patchToolchainLine v line = channelLine v ∧ cleanReplacement (channelLine v)) ∧
    (lineIsRust line = true →
      patchConfigLine v line = rustLine v ∧ cleanReplacement (rustLine v)) ∧
    (lineIsFrom line = true →
      patchDockerLine v line = fromLine v ∧ cleanReplacement (fromLine v)) ∧
    (lineIsInstall line = true →
      patchDockerLine v line = installLine ∧ cleanReplacement installLine) := by
  refine ⟨fun hm => ⟨by simp [patchToolchainLine, hm], ?_⟩,
    fun hm => ⟨by simp [patchConfigLine, hm], ?_⟩,
    fun hm => ⟨by simp [patchDockerLine, hm], ?_⟩,
    fun hm => ⟨?_, ⟨rfl, by decide, rfl, rfl, by decide⟩⟩⟩
  · have e : channelLine v = ('c' :: "hannel = \"".data) ++ v ++ "\"\n".data := rfl
    rw [e]
    exact cleanReplacement_wrap 'c' _ _ v hn hr (by decide) (by decide)
      (by decide) (by decide) (by decide) (by decide) (by decide)
  · have e : rustLine v = ('r' :: "ust = \"".data) ++ v ++ "\"\n".data := rfl
    rw [e]
    exact cleanReplacement_wrap 'r' _ _ v hn hr (by decide) (by decide)
      (by decide) (by decide) (by decide) (by decide) (by decide)
  · have e : fromLine v = ('F' :: "ROM rust:".data) ++ v ++ " as build\n".data := rfl
    rw [e]
    exact cleanReplacement_wrap 'F' _ _ v hn hr (by decide) (by decide)
      (by decide) (by decide) (by decide) (by decide) (by decide)
  · have hnf : lineIsFrom line = false := startsWithL_install_not_from _ hm
    simp [patchDockerLine, hnf, hm]

/-- C10 counterexample: when the version token itself contains a newline,
the replacement written for a matching toolchain line carries two newlines,
not exactly one terminating newline. -/
theorem replacement_two_newlines :
    (patchToolchainLine "1.7\n5".data ("channel = \"1.70\"\n".data)).count '\n' = 2 := by
  decide

theorem replacement_line_shape_witness :
    patchToolchainLine "1.75".data ("\tchannel = \"1.70\"\r\n".data) =
      channelLine "1.75".data ∧ cleanReplacement (channelLine "1.75".data) :=
  (replacement_line_shape "1.75".data ("\tchannel = \"1.70\"\r\n".data)
    (by decide) (by decide)).1 (by decide)

end PreparePlugin
